import Mathlib

/-!
Verification of the REST/JSON protocol binding of `smithy_aws_core`
(`aio/protocols.py` and `traits.py`), shallowly embedded in Lean.

The embedding mirrors the Python source: dynamically typed document values
become the inductive `PyValue`; assertion failures and raised exceptions
become `Except`; external collaborators (`parse_error_code`,
`parse_document_discriminator`) become function parameters, since the code
under verification only forwards to them.
-/

/-- A Python value as it can appear in a decoded Smithy `DocumentValue`:
a string-keyed mapping, a sequence, a string, an integer, a boolean, or
`None`.  Keys of Python dicts used here are strings. -/
inductive PyValue where
  | none
  | str (s : String)
  | int (n : Int)
  | bool (b : Bool)
  | list (xs : List PyValue)
  | map (kvs : List (String × PyValue))

/-- Python truthiness (`bool(v)`): `None`, `False`, `0`, and empty
strings/sequences/mappings are falsy; everything else is truthy. -/
def PyValue.truthy : PyValue → Bool
  | .none => false
  | .str s => !s.data.isEmpty
  | .int n => n != 0
  | .bool b => b
  | .list xs => !xs.isEmpty
  | .map kvs => !kvs.isEmpty

/-- `isinstance(v, collections.abc.Mapping)`: only dicts qualify. -/
def PyValue.isMapping : PyValue → Bool
  | .map _ => true
  | _ => false

/-- `isinstance(v, collections.abc.Sequence)`: lists/tuples qualify, and so
do strings — a Python `str` is itself a `Sequence` of 1-character strings. -/
def PyValue.isSequence : PyValue → Bool
  | .list _ => true
  | .str _ => true
  | _ => false

/-- Iterating a Python sequence: a list yields its elements, a string
yields its characters as 1-character strings; other values yield nothing
(iteration only happens after an `isinstance(…, Sequence)` check). -/
def PyValue.seqElems : PyValue → List PyValue
  | .list xs => xs
  | .str s => s.data.map (fun c => PyValue.str (String.singleton c))
  | _ => []

/-- Dictionary lookup `d[k]` as an `Option`: the value at the first
matching key of a mapping, `none` otherwise. -/
def PyValue.lookup : PyValue → String → Option PyValue
  | .map kvs, k => (kvs.find? (fun e => e.1 == k)).map Prod.snd
  | _, _ => Option.none

/-- `Mapping.get(k, default)`: the stored value when the key is present,
the default otherwise. -/
def PyValue.get (v : PyValue) (k : String) (default : PyValue) : PyValue :=
  (v.lookup k).getD default

/-- `tuple(v)` for a sequence all of whose elements are strings: `some`
of the element strings in order, `none` when some element is not a
string (the `assert isinstance(val, str)` loop fails). -/
def PyValue.strListOf (v : PyValue) : Option (List String) :=
  v.seqElems.mapM (fun e => match e with | .str s => some s | _ => Option.none)

/-- `ShapeID`: a namespaced shape identifier `namespace#name`
(`smithy_core.shapes.ShapeID`, external; only the `namespace` accessor is
used by this code). `namespace` is a Lean keyword, hence the underscore. -/
structure ShapeID where
  namespace_ : String
  name : String
deriving DecidableEq, Repr

/-- The read-only view of `smithy_http` `Fields` used by
`AWSErrorIdentifier`: an ordered collection of header fields, keyed
case-insensitively, each carrying a list of string values. -/
structure Fields where
  entries : List (String × List String)

/-- ASCII lowercasing of a header name (structurally recursive stand-in
for `str.lower()`). -/
def strLower (s : String) : String :=
  ⟨s.data.map Char.toLower⟩

/-- `key in fields`: case-insensitive membership. -/
def Fields.containsKey (f : Fields) (k : String) : Bool :=
  f.entries.any (fun e => strLower e.1 == strLower k)

/-- `fields[key].values`: the values of the first field whose name
matches case-insensitively (`[]` when absent; the code only indexes after
a membership check). -/
def Fields.valuesOf (f : Fields) (k : String) : List String :=
  ((f.entries.find? (fun e => strLower e.1 == strLower k)).map Prod.snd).getD []

/-- The part of an HTTP response `identify` consumes. -/
structure HTTPResponse where
  fields : Fields

/-- The part of an operation schema `identify` consumes:
`operation.schema.id` (`APIOperation` / `Schema`, external). -/
structure Schema where
  id : ShapeID

structure APIOperation where
  schema : Schema

/-- The header key `AWSErrorIdentifier._HEADER_KEY`. -/
def AWSErrorIdentifier.HEADER_KEY : String := "x-amzn-errortype"

/-- `AWSErrorIdentifier.identify`, parameterized by the external
error-code parser `parse_error_code` it delegates to. -/
def AWSErrorIdentifier.identify
    (parse_error_code : String → String → Option ShapeID)
    (operation : APIOperation) (response : HTTPResponse) : Option ShapeID :=
  if !response.fields.containsKey AWSErrorIdentifier.HEADER_KEY then
    Option.none
  else
    let error_field := response.fields.valuesOf AWSErrorIdentifier.HEADER_KEY
    let code := if error_field.length > 0 then error_field.head? else Option.none
    match code with
    | some c => parse_error_code c operation.schema.id.namespace_
    | Option.none => Option.none

/-- `smithy_core.shapes.ShapeType` (the members this code mentions plus a
few others to keep the type honest about not being a single-member enum). -/
inductive ShapeType where
  | STRUCTURE
  | UNION
  | MAP
  | LIST
  | STRING
  | DOCUMENT
deriving DecidableEq, Repr

/-- Modelled from the spec: how Python renders a `ShapeType` member into
the f-string of the `DiscriminatorError` message. -/
def ShapeType.pyStr : ShapeType → String
  | .STRUCTURE => "ShapeType.STRUCTURE"
  | .UNION => "ShapeType.UNION"
  | .MAP => "ShapeType.MAP"
  | .LIST => "ShapeType.LIST"
  | .STRING => "ShapeType.STRING"
  | .DOCUMENT => "ShapeType.DOCUMENT"

/-- `smithy_core.exceptions.DiscriminatorError` (external): carries only
its message. -/
structure DiscriminatorError where
  message : String
deriving DecidableEq, Repr

/-- The schema attached to a document position: its id and shape type. -/
structure DocSchema where
  id : ShapeID
  shape_type : ShapeType

/-- The `JSONDocument` settings consulted for discriminator resolution. -/
structure JSONSettings where
  default_namespace : String

/-- An `AWSJSONDocument`: a decoded JSON value (`value`) together with its
statically assigned schema (`_schema`) and codec settings (`_settings`). -/
structure AWSJSONDocument where
  schema : DocSchema
  settings : JSONSettings
  value : PyValue

/-- `Document.shape_type` (external base class): the shape type of the
statically assigned schema. -/
def AWSJSONDocument.shape_type (d : AWSJSONDocument) : ShapeType :=
  d.schema.shape_type

/-- `AWSJSONDocument.discriminator`, parameterized by the external
discriminator parser `parse_document_discriminator` it delegates to.
A raised `DiscriminatorError` becomes `Except.error`. -/
def AWSJSONDocument.discriminator
    (parse_document_discriminator : AWSJSONDocument → String → Option ShapeID)
    (d : AWSJSONDocument) : Except DiscriminatorError ShapeID :=
  if d.shape_type = ShapeType.STRUCTURE then
    Except.ok d.schema.id
  else
    match parse_document_discriminator d d.settings.default_namespace with
    | Option.none =>
        Except.error ⟨"Unable to parse discriminator for " ++
          d.shape_type.pyStr ++ " document."⟩
    | some parsed => Except.ok parsed

/-- `RestJson1Trait`: the validated protocol trait.  `document_value` is
the backing raw value stored by the `Trait` base class (modelled from the
spec: the base stores the raw constructor argument and exposes it as
`document_value`); `http` and `event_stream_http` are the two declared
dataclass fields. -/
structure RestJson1Trait where
  document_value : PyValue
  http : List String
  event_stream_http : List String

/-- `RestJson1Trait.__init__(value)`.  Each `assert` that can fail becomes
an `Except.error`; success returns the frozen instance. -/
def RestJson1Trait.init (value : PyValue) : Except String RestJson1Trait :=
  let document_value := if value.truthy then value else PyValue.map []
  if document_value.isMapping then
    let http_versions := document_value.get "http" (PyValue.list [PyValue.str "http/1.1"])
    if http_versions.isSequence then
      match http_versions.strListOf with
      | some http =>
        let event_stream_http_versions := document_value.get "eventStreamHttp" PyValue.none
        if !event_stream_http_versions.truthy then
          Except.ok ⟨value, http, http⟩
        else
          if event_stream_http_versions.isSequence then
            match event_stream_http_versions.strListOf with
            | some esh => Except.ok ⟨value, http, esh⟩
            | Option.none => Except.error "assert isinstance(val, str) failed for eventStreamHttp"
          else Except.error "assert isinstance(event_stream_http_versions, Sequence) failed"
      | Option.none => Except.error "assert isinstance(val, str) failed for http"
    else Except.error "assert isinstance(http_versions, Sequence) failed"
  else Except.error "assert isinstance(document_value, Mapping) failed"

/-- One dataclass field as declared in the source: its name, its value
(rendered as a `PyValue`), and its `repr` / `hash` / `compare` flags. -/
structure DataclassField where
  name : String
  value : PyValue
  repr : Bool
  hash : Bool
  compare : Bool

/-- The dataclass fields of a `RestJson1Trait` instance with the flags
declared in the source: `http` and `event_stream_http` are declared with
`field(repr=False, hash=False, compare=False)`; the backing
`document_value` comes from the `Trait` base class and participates
normally (modelled from the spec, which calls the excluded pair
"descriptive metadata, not identity-defining"). -/
def RestJson1Trait.fields (t : RestJson1Trait) : List DataclassField :=
  [⟨"document_value", t.document_value, true, true, true⟩,
   ⟨"http", PyValue.list (t.http.map PyValue.str), false, false, false⟩,
   ⟨"event_stream_http", PyValue.list (t.event_stream_http.map PyValue.str), false, false, false⟩]

/-- The tuple of field values a frozen dataclass `__eq__` compares:
values of the fields with `compare=True`. -/
def dataclassEqKey (fs : List DataclassField) : List PyValue :=
  (fs.filter (fun f => f.compare)).map (fun f => f.value)

/-- The tuple of field values a frozen dataclass `__hash__` hashes:
values of the fields with `hash` (and `compare`) enabled.  Two instances
with equal keys necessarily have equal hashes. -/
def dataclassHashKey (fs : List DataclassField) : List PyValue :=
  (fs.filter (fun f => f.hash)).map (fun f => f.value)

/-- The `(name, value)` pairs a dataclass `__repr__` renders: the fields
with `repr=True`, in declaration order.  The repr string is a function of
exactly this list. -/
def dataclassReprFields (fs : List DataclassField) : List (String × PyValue) :=
  (fs.filter (fun f => f.repr)).map (fun f => (f.name, f.value))

/-- Dataclass equality of two `RestJson1Trait` instances. -/
def RestJson1Trait.pyEq (a b : RestJson1Trait) : Prop :=
  dataclassEqKey a.fields = dataclassEqKey b.fields

/-- `SigV4Trait`: only the backing `document_value` stored by the `Trait`
base class (modelled from the spec); `name` is a derived property, not a
stored field. -/
structure SigV4Trait where
  document_value : PyValue

/-- `SigV4Trait` construction.  Modelled from the spec where the `Trait`
base class is missing from the sources: the base stores the raw value and
runs `__post_init__`, whose two assertions are the only way construction
fails (`document_value["name"]` on a mapping without the key raises
`KeyError`, also a construction-time failure). -/
def SigV4Trait.init (value : PyValue) : Except String SigV4Trait :=
  if value.isMapping then
    match value.lookup "name" with
    | some (PyValue.str _) => Except.ok ⟨value⟩
    | some _ => Except.error "assert isinstance(self.document_value[name], str) failed"
    | Option.none => Except.error "KeyError: name"
  else Except.error "assert isinstance(self.document_value, Mapping) failed"

/-- The `name` property: re-reads `self.document_value["name"]` from the
backing value on every access (`none` models the `KeyError`/non-string
cases that validated construction rules out). -/
def SigV4Trait.name (t : SigV4Trait) : Option String :=
  match t.document_value.lookup "name" with
  | some (PyValue.str s) => some s
  | _ => Option.none

/-- C1: when the `x-amzn-errortype` header field is present with at least
one value, `identify` returns exactly the error-code parser applied to the
first value and the operation schema namespace — in particular a `none`
from the parser is propagated unchanged, and `identify` never raises. -/
theorem identify_parses_first_header_value
    (p : String → String → Option ShapeID) (op : APIOperation) (r : HTTPResponse)
    (v : String) (vs : List String)
    (hpresent : r.fields.containsKey AWSErrorIdentifier.HEADER_KEY = true)
    (hvals : r.fields.valuesOf AWSErrorIdentifier.HEADER_KEY = v :: vs) :
    AWSErrorIdentifier.identify p op r = p v op.schema.id.namespace_ := by
  simp [AWSErrorIdentifier.identify, hpresent, hvals]

theorem identify_parses_first_header_value_witness :
    AWSErrorIdentifier.identify (fun c ns => some ⟨ns, c⟩)
      ⟨⟨⟨"com.example", "Op"⟩⟩⟩ ⟨⟨[("x-amzn-errortype", ["ValidationException"])]⟩⟩ =
      some ⟨"com.example", "ValidationException"⟩ :=
  identify_parses_first_header_value _ _ _ "ValidationException" [] (by decide) (by decide)

/-- C2: when the `x-amzn-errortype` header field is absent, or present
with an empty list of values, `identify` returns `none` ("unknown")
without raising. -/
theorem identify_returns_unknown_without_header
    (p : String → String → Option ShapeID) (op : APIOperation) (r : HTTPResponse)
    (h : r.fields.containsKey AWSErrorIdentifier.HEADER_KEY = false ∨
         r.fields.valuesOf AWSErrorIdentifier.HEADER_KEY = []) :
    AWSErrorIdentifier.identify p op r = Option.none := by
  rcases h with h | h
  · simp [AWSErrorIdentifier.identify, h]
  · simp only [AWSErrorIdentifier.identify, h]
    split <;> rfl

theorem identify_returns_unknown_without_header_witness :
    AWSErrorIdentifier.identify (fun c ns => some ⟨ns, c⟩)
      ⟨⟨⟨"com.example", "Op"⟩⟩⟩ ⟨⟨[("content-type", ["application/json"])]⟩⟩ = Option.none ∧
    AWSErrorIdentifier.identify (fun c ns => some ⟨ns, c⟩)
      ⟨⟨⟨"com.example", "Op"⟩⟩⟩ ⟨⟨[("x-amzn-errortype", [])]⟩⟩ = Option.none :=
  ⟨identify_returns_unknown_without_header _ _ _ (Or.inl (by decide)),
   identify_returns_unknown_without_header _ _ _ (Or.inr (by decide))⟩

/-- C3: for a document whose statically assigned shape type is STRUCTURE,
`discriminator` returns that schema id, for every payload and every
discriminator parser, and never raises. -/
theorem discriminator_structure_returns_schema_id
    (p : AWSJSONDocument → String → Option ShapeID) (d : AWSJSONDocument)
    (h : d.shape_type = ShapeType.STRUCTURE) :
    AWSJSONDocument.discriminator p d = Except.ok d.schema.id := by
  simp [AWSJSONDocument.discriminator, h]

theorem discriminator_structure_returns_schema_id_witness :
    AWSJSONDocument.discriminator (fun _ _ => Option.none)
      ⟨⟨⟨"com.example", "MyStruct"⟩, ShapeType.STRUCTURE⟩, ⟨"ns"⟩,
        PyValue.map [("unrelated", PyValue.int 3)]⟩ =
      Except.ok ⟨"com.example", "MyStruct"⟩ :=
  discriminator_structure_returns_schema_id _ _ (by rfl)

/-- C4: for a document whose shape type is not STRUCTURE, a `none` from
the discriminator parser makes the access raise a `DiscriminatorError`
whose message names the document shape type, and a `some` from the parser
is returned as the discriminator. -/
theorem discriminator_non_structure_delegates
    (p : AWSJSONDocument → String → Option ShapeID) (d : AWSJSONDocument)
    (h : d.shape_type ≠ ShapeType.STRUCTURE) :
    (p d d.settings.default_namespace = Option.none →
      AWSJSONDocument.discriminator p d =
        Except.error ⟨"Unable to parse discriminator for " ++
          d.shape_type.pyStr ++ " document."⟩) ∧
    (∀ s, p d d.settings.default_namespace = some s →
      AWSJSONDocument.discriminator p d = Except.ok s) := by
  constructor
  · intro hp
    simp [AWSJSONDocument.discriminator, h, hp]
  · intro s hp
    simp [AWSJSONDocument.discriminator, h, hp]

theorem discriminator_non_structure_delegates_witness :
    AWSJSONDocument.discriminator (fun _ _ => Option.none)
      ⟨⟨⟨"ns", "MyUnion"⟩, ShapeType.UNION⟩, ⟨"ns"⟩, PyValue.map []⟩ =
      Except.error ⟨"Unable to parse discriminator for ShapeType.UNION document."⟩ ∧
    AWSJSONDocument.discriminator (fun _ _ => some ⟨"ns", "T"⟩)
      ⟨⟨⟨"ns", "MyUnion"⟩, ShapeType.UNION⟩, ⟨"ns"⟩, PyValue.map []⟩ =
      Except.ok ⟨"ns", "T"⟩ :=
  ⟨(discriminator_non_structure_delegates _ _ (by decide)).1 (by rfl),
   (discriminator_non_structure_delegates _ _ (by decide)).2 ⟨"ns", "T"⟩ (by rfl)⟩

/-- C6: constructing `RestJson1Trait` from `None` succeeds with both
`http` and `event_stream_http` equal to `("http/1.1",)`. -/
theorem restJson1_none_defaults :
    RestJson1Trait.init PyValue.none =
      Except.ok ⟨PyValue.none, ["http/1.1"], ["http/1.1"]⟩ := by
  rfl

/-- C10: a bare string value for `http` (or `eventStreamHttp`) passes the
sequence-of-strings validation — each character is itself a string — so
construction succeeds and stores the tuple of individual characters. -/
theorem restJson1_accepts_bare_string_http :
    RestJson1Trait.init (PyValue.map [("http", PyValue.str "h2")]) =
      Except.ok ⟨PyValue.map [("http", PyValue.str "h2")], ["h", "2"], ["h", "2"]⟩ ∧
    RestJson1Trait.init (PyValue.map [("eventStreamHttp", PyValue.str "h2c")]) =
      Except.ok ⟨PyValue.map [("eventStreamHttp", PyValue.str "h2c")],
        ["http/1.1"], ["h", "2", "c"]⟩ := by
  constructor <;> rfl

/-- The branch `value or {}` collapses for mapping inputs: the empty
mapping is falsy but is replaced by the (equal) empty mapping. -/
theorem truthy_map_if (m : List (String × PyValue)) :
    (if (PyValue.map m).truthy = true then PyValue.map m else PyValue.map []) =
      PyValue.map m := by
  cases m <;> rfl

/-- A sequence of strings frozen by the validation loop is empty exactly
when the underlying Python sequence is. -/
theorem PyValue.strListOf_eq_nil_iff {v : PyValue} {l : List String}
    (h : v.strListOf = some l) : l = [] ↔ v.seqElems = [] := by
  unfold PyValue.strListOf at h
  cases hse : v.seqElems with
  | nil =>
    rw [hse] at h
    simp only [List.mapM_nil, Option.pure_def, Option.some_inj] at h
    simp [← h]
  | cons x xs =>
    rw [hse] at h
    constructor
    · intro hl
      subst hl
      rw [List.mapM_cons] at h
      simp [Option.bind_eq_some] at h
    · intro hc
      cases hc

/-- A Python value with at least one sequence element is truthy. -/
theorem PyValue.truthy_of_seqElems_ne_nil {v : PyValue} (h : v.seqElems ≠ []) :
    v.truthy = true := by
  cases v with
  | list xs =>
    cases xs with
    | nil => exact absurd rfl h
    | cons y ys => rfl
  | str s =>
    cases s with
    | mk cs =>
      cases cs with
      | nil => exact absurd rfl h
      | cons c cs => rfl
  | none => exact absurd rfl h
  | int n => exact absurd rfl h
  | bool b => exact absurd rfl h
  | map kvs => exact absurd rfl h

/-- A truthy Python `Sequence` has at least one element. -/
theorem PyValue.seqElems_ne_nil_of_truthy {v : PyValue} (hs : v.isSequence = true)
    (ht : v.truthy = true) : v.seqElems ≠ [] := by
  cases v with
  | list xs =>
    cases xs with
    | nil => cases ht
    | cons y ys => simp [PyValue.seqElems]
  | str s =>
    cases s with
    | mk cs =>
      cases cs with
      | nil => cases ht
      | cons c cs => simp [PyValue.seqElems]
  | none => cases hs
  | int n => cases hs
  | bool b => cases hs
  | map kvs => cases hs

/-- Characterization of a successful `RestJson1Trait` construction from a
mapping: the backing value is stored raw, `http` is the validated tuple of
the `http` entry (or the default), and `event_stream_http` either inherits
`http` (falsy `eventStreamHttp` entry) or is the validated tuple of a
truthy `eventStreamHttp` sequence. -/
theorem RestJson1Trait.init_map_ok {m : List (String × PyValue)} {t : RestJson1Trait}
    (h : RestJson1Trait.init (PyValue.map m) = Except.ok t) :
    t.document_value = PyValue.map m ∧
    ((PyValue.map m).get "http" (PyValue.list [PyValue.str "http/1.1"])).strListOf =
      some t.http ∧
    ((((PyValue.map m).get "eventStreamHttp" PyValue.none).truthy = false ∧
        t.event_stream_http = t.http) ∨
      (((PyValue.map m).get "eventStreamHttp" PyValue.none).truthy = true ∧
        ((PyValue.map m).get "eventStreamHttp" PyValue.none).isSequence = true ∧
        ((PyValue.map m).get "eventStreamHttp" PyValue.none).strListOf =
          some t.event_stream_http)) := by
  simp only [RestJson1Trait.init, truthy_map_if] at h
  rw [if_pos (show (PyValue.map m).isMapping = true from rfl)] at h
  split at h
  · split at h
    · next http hhttp =>
      split at h
      · next hesh =>
        injection h with h
        subst h
        refine ⟨rfl, hhttp, Or.inl ⟨?_, rfl⟩⟩
        simpa using hesh
      · next hesh =>
        split at h
        · next hseq =>
          split at h
          · next esh hesh2 =>
            injection h with h
            subst h
            exact ⟨rfl, hhttp, Or.inr ⟨by simpa using hesh, hseq, hesh2⟩⟩
          · exact Except.noConfusion h
        · exact Except.noConfusion h
    · exact Except.noConfusion h
  · exact Except.noConfusion h

/-- C5 counterexample: the claim "`http` is non-empty for every input
mapping on which construction succeeds" is false — `{"http": []}` is
accepted (an empty list is a `Sequence` whose element check is vacuous)
and yields an empty `http`. -/
theorem restJson1_empty_http_counterexample :
    ¬ ∀ (m : List (String × PyValue)) (t : RestJson1Trait),
        RestJson1Trait.init (PyValue.map m) = Except.ok t → t.http ≠ [] := by
  intro hall
  exact hall [("http", PyValue.list [])]
    ⟨PyValue.map [("http", PyValue.list [])], [], []⟩ rfl rfl

/-- C5 (amended): for every input mapping on which construction succeeds,
`http` equals `("http/1.1",)` when the `http` key is absent, and is empty
exactly when the `http` value supplied in the source document is an empty
sequence. -/
theorem restJson1_http_default_and_nonempty
    (m : List (String × PyValue)) (t : RestJson1Trait)
    (h : RestJson1Trait.init (PyValue.map m) = Except.ok t) :
    ((PyValue.map m).lookup "http" = Option.none → t.http = ["http/1.1"]) ∧
    (∀ v, (PyValue.map m).lookup "http" = some v → (t.http = [] ↔ v.seqElems = [])) := by
  obtain ⟨-, hhttp, -⟩ := RestJson1Trait.init_map_ok h
  constructor
  · intro hl
    rw [PyValue.get, hl, Option.getD_none] at hhttp
    have h2 : (some ["http/1.1"] : Option (List String)) = some t.http := hhttp
    exact (Option.some_inj.mp h2).symm
  · intro v hl
    rw [PyValue.get, hl, Option.getD_some] at hhttp
    exact PyValue.strListOf_eq_nil_iff hhttp

theorem restJson1_http_default_and_nonempty_witness :
    (⟨PyValue.map [], ["http/1.1"], ["http/1.1"]⟩ : RestJson1Trait).http =
      ["http/1.1"] :=
  (restJson1_http_default_and_nonempty []
    ⟨PyValue.map [], ["http/1.1"], ["http/1.1"]⟩ (by rfl)).1 (by rfl)

/-- C7: `event_stream_http` inherits the resolved `http` when the
`eventStreamHttp` entry is absent or empty, and is the tuple of the
values of that entry (independent of `http`) when present and non-empty; in
particular `{"http": ["h2"], "eventStreamHttp": ["h2c"]}` yields
`http = ("h2",)` and `event_stream_http = ("h2c",)`. -/
theorem restJson1_event_stream_http_rules
    (m : List (String × PyValue)) (t : RestJson1Trait)
    (h : RestJson1Trait.init (PyValue.map m) = Except.ok t) :
    ((PyValue.map m).lookup "eventStreamHttp" = Option.none →
      t.event_stream_http = t.http) ∧
    (∀ v, (PyValue.map m).lookup "eventStreamHttp" = some v → v.seqElems = [] →
      t.event_stream_http = t.http) ∧
    (∀ v l, (PyValue.map m).lookup "eventStreamHttp" = some v →
      v.strListOf = some l → l ≠ [] → t.event_stream_http = l) ∧
    RestJson1Trait.init (PyValue.map
        [("http", PyValue.list [PyValue.str "h2"]),
         ("eventStreamHttp", PyValue.list [PyValue.str "h2c"])]) =
      Except.ok ⟨PyValue.map
        [("http", PyValue.list [PyValue.str "h2"]),
         ("eventStreamHttp", PyValue.list [PyValue.str "h2c"])], ["h2"], ["h2c"]⟩ := by
  obtain ⟨-, -, hdisj⟩ := RestJson1Trait.init_map_ok h
  refine ⟨?_, ?_, ?_, rfl⟩
  · intro hl
    rw [PyValue.get, hl, Option.getD_none] at hdisj
    rcases hdisj with ⟨-, he⟩ | ⟨ht, -, -⟩
    · exact he
    · exact Bool.noConfusion ht
  · intro v hl hse
    rw [PyValue.get, hl, Option.getD_some] at hdisj
    rcases hdisj with ⟨-, he⟩ | ⟨ht, hs, -⟩
    · exact he
    · exact absurd hse (PyValue.seqElems_ne_nil_of_truthy hs ht)
  · intro v l hl hsl hlne
    rw [PyValue.get, hl, Option.getD_some] at hdisj
    rcases hdisj with ⟨ht, -⟩ | ⟨-, -, hsl2⟩
    · have hne : v.seqElems ≠ [] := fun hnil =>
        hlne ((PyValue.strListOf_eq_nil_iff hsl).mpr hnil)
      rw [PyValue.truthy_of_seqElems_ne_nil hne] at ht
      exact Bool.noConfusion ht
    · rw [hsl] at hsl2
      exact (Option.some_inj.mp hsl2).symm

theorem restJson1_event_stream_http_rules_witness :
    (⟨PyValue.map [("http", PyValue.list [PyValue.str "h2"])], ["h2"], ["h2"]⟩ :
        RestJson1Trait).event_stream_http =
      (⟨PyValue.map [("http", PyValue.list [PyValue.str "h2"])], ["h2"], ["h2"]⟩ :
        RestJson1Trait).http :=
  (restJson1_event_stream_http_rules [("http", PyValue.list [PyValue.str "h2"])]
    ⟨PyValue.map [("http", PyValue.list [PyValue.str "h2"])], ["h2"], ["h2"]⟩
    (by rfl)).1 (by rfl)

/-- C8: `SigV4Trait` construction succeeds exactly when the raw value is
a mapping with a string `name` entry, in which case `name` re-reads that
string from the backing value; `{"name": "service"}` constructs with
`name = "service"`, while `{}` and `"not-a-mapping"` fail construction. -/
theorem sigV4_name_required (v : PyValue) :
    ((∃ t, SigV4Trait.init v = Except.ok t) ↔
      (v.isMapping = true ∧ ∃ s, v.lookup "name" = some (PyValue.str s))) ∧
    (∀ t s, SigV4Trait.init v = Except.ok t →
      v.lookup "name" = some (PyValue.str s) →
      t.document_value = v ∧ t.name = some s) ∧
    SigV4Trait.init (PyValue.map [("name", PyValue.str "service")]) =
      Except.ok ⟨PyValue.map [("name", PyValue.str "service")]⟩ ∧
    SigV4Trait.name ⟨PyValue.map [("name", PyValue.str "service")]⟩ = some "service" ∧
    SigV4Trait.init (PyValue.map []) = Except.error "KeyError: name" ∧
    SigV4Trait.init (PyValue.str "not-a-mapping") =
      Except.error "assert isinstance(self.document_value, Mapping) failed" := by
  refine ⟨⟨?_, ?_⟩, ?_, rfl, rfl, rfl, rfl⟩
  · rintro ⟨t, ht⟩
    unfold SigV4Trait.init at ht
    split at ht
    · next hm =>
      split at ht
      · next s heq => exact ⟨hm, s, heq⟩
      · exact Except.noConfusion ht
      · exact Except.noConfusion ht
    · exact Except.noConfusion ht
  · rintro ⟨hm, s, hs⟩
    refine ⟨⟨v⟩, ?_⟩
    unfold SigV4Trait.init
    rw [if_pos hm, hs]
  · intro t s ht hs
    unfold SigV4Trait.init at ht
    split at ht
    · split at ht
      · next s' heq =>
        injection ht with ht
        subst ht
        refine ⟨rfl, ?_⟩
        simp [SigV4Trait.name, hs]
      · exact Except.noConfusion ht
      · exact Except.noConfusion ht
    · exact Except.noConfusion ht

theorem sigV4_name_required_witness :
    SigV4Trait.name ⟨PyValue.map [("name", PyValue.str "service")]⟩ = some "service" ∧
    (⟨PyValue.map [("name", PyValue.str "service")]⟩ : SigV4Trait).document_value =
      PyValue.map [("name", PyValue.str "service")] :=
  ⟨((sigV4_name_required (PyValue.map [("name", PyValue.str "service")])).2.1
      ⟨PyValue.map [("name", PyValue.str "service")]⟩ "service" (by rfl) (by rfl)).2,
   ((sigV4_name_required (PyValue.map [("name", PyValue.str "service")])).2.1
      ⟨PyValue.map [("name", PyValue.str "service")]⟩ "service" (by rfl) (by rfl)).1⟩

/-- C9: the `http` and `event_stream_http` fields are declared with
`repr=False, hash=False, compare=False`, so two instances agreeing on
everything else are dataclass-equal, have equal hash keys, and render
identically — the two sequences never reach the repr. -/
theorem restJson1_metadata_not_identity
    (a b : RestJson1Trait) (h : a.document_value = b.document_value) :
    RestJson1Trait.pyEq a b ∧
    dataclassHashKey a.fields = dataclassHashKey b.fields ∧
    dataclassReprFields a.fields = dataclassReprFields b.fields ∧
    (dataclassReprFields a.fields).map Prod.fst = ["document_value"] := by
  refine ⟨?_, ?_, ?_, ?_⟩ <;>
    simp [RestJson1Trait.pyEq, dataclassEqKey, dataclassHashKey, dataclassReprFields,
      RestJson1Trait.fields, List.filter, h]

theorem restJson1_metadata_not_identity_witness :
    RestJson1Trait.pyEq ⟨PyValue.map [], ["h2"], ["h2"]⟩
      ⟨PyValue.map [], ["spdy/3"], ["h2c"]⟩ :=
  (restJson1_metadata_not_identity ⟨PyValue.map [], ["h2"], ["h2"]⟩
    ⟨PyValue.map [], ["spdy/3"], ["h2c"]⟩ rfl).1
